import Mathlib

/-!
Verification of `src/http.ts` (a minimal fetch wrapper plus two Response
helpers) against its specification.

The shallow embedding translates the TypeScript source into Lean:
promises that have been awaited become `Except JsErr` values (a rejected
promise is `.error e`), the externally supplied fetch primitive becomes a
function argument, and the response-like value it yields becomes a
structure carrying the fields and (already awaited) body-reading results
that the source accesses.
-/

namespace Http

/-- JSON-like values: the model of parsed JSON bodies and of the values
stored in call-option objects (e.g. nested header maps). -/
inductive Json where
  | null
  | bool (b : Bool)
  | num (n : Int)
  | str (s : String)
  | arr (elems : List Json)
  | obj (fields : List (String × Json))

/-- Call options (the `RequestInit`-shaped second fetch parameter): a
JavaScript object modelled as an insertion-ordered association list from
option names to values (keys unique, as in any JS object literal). -/
abbrev Opts := List (String × Json)

/-- A JavaScript error value: a message plus an opaque payload
distinguishing error identity beyond the message (class, stack, ...).
Propagating an error "verbatim" means returning the very same value. -/
structure JsErr where
  message : String
  payload : Nat
deriving DecidableEq, Repr

/-- Opaque model of the platform `ReadableStream` object found in the
`body` field of a fetch `Response`. -/
inductive ReadableStream where
  | mk
deriving DecidableEq, Repr

/-- Model of `JSON.stringify` applied to `res.body` (line 34 of the
source). `res.body` is `ReadableStream | null`: `JSON.stringify(null)`
is `"null"`, and `JSON.stringify` of a `ReadableStream` instance is
`"\x7b\x7d"` because the stream object has no own enumerable properties
(its members are prototype getters). -/
def stringifyRawBody : Option ReadableStream → String
  | none => "null"
  | some _ => "\x7b\x7d"

/-- The response-like value the fetch primitive resolves with, as used by
the source: `ok`, `status`, `url`, `headers.get("content-type")`
(`contentType`, `none` when the header is missing), the raw `body` stream,
and the awaited outcomes of the two body-reading methods: `jsonBody` is
what `await res.json()` produces (`.error e` when the JSON parse throws
`e`) and `textBody` is what `await res.text()` produces. -/
structure HttpResponse where
  ok : Bool
  status : Int
  url : String
  contentType : Option String
  body : Option ReadableStream
  jsonBody : Except JsErr Json
  textBody : Except JsErr String

/-- JavaScript `s.includes(sub)`: case-sensitive substring containment. -/
def strIncludes (s sub : String) : Bool :=
  (List.range (s.length + 1)).any (fun i => sub.data.isPrefixOf (s.data.drop i))

/-- Line 24-26 of the source:
`res.headers.get("content-type")?.includes("application/json")`.
A missing header makes the optional chain yield `undefined`, which is
falsy wherever `isJson` is consumed, hence `false` here. -/
def jsIsJson (res : HttpResponse) : Bool :=
  match res.contentType with
  | some ct => strIncludes ct "application/json"
  | none => false

/-- The template literal of lines 33-35:
`Request to ${res.url} failed with status ${res.status} and response "${rendered}".`
where `rendered` is the already-chosen body rendering. -/
def failureMessage (res : HttpResponse) (rendered : String) : String :=
  "Request to " ++ res.url ++ " failed with status " ++ toString res.status
    ++ " and response \"" ++ rendered ++ "\"."

/-- The possible resolved values of the bound client: `T | string` in the
source — a parsed JSON value (json branch) or the raw text (text branch). -/
inductive ClientResult where
  | json (v : Json)
  | text (s : String)

/-- Lines 24-37 of the source, everything after `await fetch(...)`
resolved with response `res`:
compute `isJson`; await the corresponding body read into `result`
(a throw there propagates — the `await` happens before `res.ok` is
inspected); then return `result` if `res.ok`, else throw an `Error` whose
message renders `JSON.stringify(res.body)` when `isJson` and the text
`result` otherwise. Errors thrown by this code itself carry payload `0`. -/
def handleResponse (res : HttpResponse) : Except JsErr ClientResult :=
  if jsIsJson res then
    match res.jsonBody with
    | .error e => .error e
    | .ok v =>
      if res.ok then .ok (.json v)
      else .error ⟨failureMessage res (stringifyRawBody res.body), 0⟩
  else
    match res.textBody with
    | .error e => .error e
    | .ok s =>
      if res.ok then .ok (.text s)
      else .error ⟨failureMessage res s, 0⟩

/-- JavaScript object spread `\x7b...d, ...o\x7d` (line 20): the keys of
`d` in order, each taking `o`'s value when `o` also has the key, followed
by the keys of `o` that `d` lacks, in `o`'s order. -/
def mergeOpts (d o : Opts) : Opts :=
  (d.map fun kv =>
    match o.lookup kv.1 with
    | some v => (kv.1, v)
    | none => kv) ++
  o.filter fun kv => (d.lookup kv.1).isNone

/-- Lines 18-21 of the source: `let init = params[1]; if (defaultOpts)
\x7b init = \x7b ...defaultOpts, ...init \x7d; \x7d`. When the per-call
options are `undefined`, spreading them adds nothing, so the merge is
with the empty object. -/
def jsInit (defaultOpts o : Option Opts) : Option Opts :=
  match defaultOpts with
  | none => o
  | some d => some (mergeOpts d (o.getD []))

/-- The awaited fetch primitive: target and optional call options to
either a response (resolution) or an error (rejection). -/
abbrev FetchPrim := String → Option Opts → Except JsErr HttpResponse

/-- The step after the fetch call: a rejection of the primitive
propagates (the `await` on line 22 re-raises it, nothing catches it),
a resolution is handled by lines 24-37. -/
def afterFetch : Except JsErr HttpResponse → Except JsErr ClientResult
  | .error e => .error e
  | .ok res => handleResponse res

/-- Lines 14-39 of the source: `getClient(fetch, defaultOpts?)` returns
the bound client `(target, options?) => ...`. The generic cast
`as T` has no runtime content and is dropped. -/
def getClient (f : FetchPrim) (defaultOpts : Option Opts)
    (target : String) (opts : Option Opts) : Except JsErr ClientResult :=
  afterFetch (f target (jsInit defaultOpts opts))

/-- Modelled from the spec: the platform `Response` value as the spec's
data model describes it (section 3): "a status code (integer ...) paired
with a body message (string ...)". The source constructs it via
`new Response(msg, \x7b status \x7d)`; the constructor itself is platform
code outside this repository, so it is taken from the spec, which states
that no status-range validation is performed by this system. -/
structure Response where
  status : Int
  bodyText : String
deriving DecidableEq, Repr

/-- Line 49 of the source: `ok = (status = 200, msg = "Ok") =>
new Response(msg, \x7b status \x7d)`. JS default parameters fire when the
argument is absent (`undefined`), modelled by `Option` arguments. -/
def ok (status : Option Int) (msg : Option String) : Response :=
  ⟨status.getD 200, msg.getD "Ok"⟩

/-- Lines 59-60 of the source: `err = (status = 400, msg = "Bad Request")
=> new Response(msg, \x7b status \x7d)`. -/
def err (status : Option Int) (msg : Option String) : Response :=
  ⟨status.getD 400, msg.getD "Bad Request"⟩

/-! Concrete responses and primitives used to instantiate the theorems
below on the inputs named by the spec's testable properties. -/

/-- The parsed JSON value of the body `\x7b"dogs":[\x7b"name":"Rex"\x7d]\x7d`. -/
def dogsJson : Json := .obj [("dogs", .arr [.obj [("name", .str "Rex")]])]

/-- A successful JSON response: `ok`, status 200, JSON content type, body
`\x7b"dogs":[\x7b"name":"Rex"\x7d]\x7d` whose `json()` yields `dogsJson`. -/
def dogsResponse : HttpResponse :=
  ⟨true, 200, "https://api.dogs.awesome", some "application/json",
   some .mk, .ok dogsJson, .ok "\x7b\"dogs\":[\x7b\"name\":\"Rex\"\x7d]\x7d"⟩

/-- A deterministic primitive double always resolving with `dogsResponse`. -/
def dogsFetch : FetchPrim := fun _ _ => .ok dogsResponse

/-- A successful plain-text response with body `"pong"` and a non-JSON
content type. -/
def pongResponse : HttpResponse :=
  ⟨true, 200, "https://x/ping", some "text/plain", some .mk, .ok .null, .ok "pong"⟩

/-- A deterministic primitive double always resolving with `pongResponse`. -/
def pongFetch : FetchPrim := fun _ _ => .ok pongResponse

/-- The spec's failure scenario: `ok = false`, status 404, url
`"https://x/y"`, non-JSON body `"not found"`. -/
def notFoundResponse : HttpResponse :=
  ⟨false, 404, "https://x/y", some "text/plain; charset=utf-8", some .mk,
   .ok .null, .ok "not found"⟩

/-- A deterministic primitive double always resolving with `notFoundResponse`. -/
def notFoundFetch : FetchPrim := fun _ _ => .ok notFoundResponse

/-- A primitive double whose promise rejects with a transport error. -/
def rejectingFetch : FetchPrim := fun _ _ => .error ⟨"boom", 7⟩

/-- A response whose `json()` rejects (unparsable JSON body) while the
content type claims JSON. -/
def badParseResponse : HttpResponse :=
  ⟨false, 500, "https://x/y", some "application/json", some .mk,
   .error ⟨"Unexpected token", 3⟩, .ok "oops"⟩

/-- A deterministic primitive double always resolving with `badParseResponse`. -/
def badParseFetch : FetchPrim := fun _ _ => .ok badParseResponse

/-- A placeholder response used when a statement quantifies over a
response that a particular instantiation never consults. -/
def dummyResponse : HttpResponse :=
  ⟨true, 200, "", none, none, .ok .null, .ok ""⟩

/-- A failing JSON response: `ok = false`, status 500, JSON content type,
body text `\x7b"a":1\x7d` whose `json()` parses to the object
`\x7b a: 1 \x7d`, raw `body` stream present (non-null). -/
def badJsonApiResponse : HttpResponse :=
  ⟨false, 500, "https://x/y", some "application/json", some .mk,
   .ok (.obj [("a", .num 1)]), .ok "\x7b\"a\":1\x7d"⟩

/-- A deterministic primitive double always resolving with `badJsonApiResponse`. -/
def badJsonApiFetch : FetchPrim := fun _ _ => .ok badJsonApiResponse

end Http

/-! Theorems: one per claim, with witnesses instantiating the
hypothesis-bearing ones on concrete inputs. -/

/-- C6: `ok()` produces status `200` and body `"Ok"`; `ok(201, "Created")`
produces `201`/`"Created"`; `err()` produces `400`/`"Bad Request"`;
`err(404, "Not Found")` produces `404`/`"Not Found"`. -/
theorem helpers_default_and_explicit_values :
    Http.ok none none = ⟨200, "Ok"⟩
    ∧ Http.ok (some 201) (some "Created") = ⟨201, "Created"⟩
    ∧ Http.err none none = ⟨400, "Bad Request"⟩
    ∧ Http.err (some 404) (some "Not Found") = ⟨404, "Not Found"⟩ :=
  ⟨rfl, rfl, rfl, rfl⟩

/-- C7: for every integer status (and any message), `ok` and `err`
construct a response carrying exactly that status — the construction is a
total function, so no status value is rejected and no error is raised,
however inconsistent with the success/error intent. -/
theorem helpers_accept_any_integer_status (status : Int) (msg : String) :
    Http.ok (some status) (some msg) = ⟨status, msg⟩
    ∧ Http.err (some status) (some msg) = ⟨status, msg⟩ :=
  ⟨rfl, rfl⟩

/-- C10: with both arguments supplied, `ok` and `err` are extensionally
equal; they differ only in their defaults (`200`/`"Ok"` versus
`400`/`"Bad Request"`), which do differ. -/
theorem ok_err_extensionally_equal (status : Int) (msg : String) :
    Http.ok (some status) (some msg) = Http.err (some status) (some msg)
    ∧ Http.ok none none = ⟨200, "Ok"⟩
    ∧ Http.err none none = ⟨400, "Bad Request"⟩
    ∧ Http.ok none none ≠ Http.err none none :=
  ⟨rfl, rfl, rfl, by decide⟩

/-- C9: the bound client is deterministic and stateless — in this
embedding it is a pure function of the primitive, the default options and
the call arguments (the source closure holds no mutable state), so two
calls with identical arguments both resolve to the same value or both
reject with errors bearing identical messages. -/
theorem client_deterministic (f : Http.FetchPrim) (d : Option Http.Opts)
    (t : String) (o : Option Http.Opts) :
    (∃ v, Http.getClient f d t o = .ok v ∧ Http.getClient f d t o = .ok v)
    ∨ (∃ e₁ e₂, Http.getClient f d t o = .error e₁
        ∧ Http.getClient f d t o = .error e₂
        ∧ e₁.message = e₂.message) := by
  cases h : Http.getClient f d t o with
  | ok v => exact .inl ⟨v, rfl, rfl⟩
  | error e => exact .inr ⟨e, e, rfl, rfl, rfl⟩

/-- C3: a response with `ok = true` whose `content-type` header value
contains `"application/json"` makes the bound client resolve to the value
produced by the JSON body read. -/
theorem json_success_resolves_parsed_body (f : Http.FetchPrim)
    (d : Option Http.Opts) (t : String) (o : Option Http.Opts)
    (res : Http.HttpResponse) (ct : String) (v : Http.Json)
    (hf : f t (Http.jsInit d o) = .ok res)
    (hok : res.ok = true)
    (hct : res.contentType = some ct)
    (hin : Http.strIncludes ct "application/json" = true)
    (hj : res.jsonBody = .ok v) :
    Http.getClient f d t o = .ok (.json v) := by
  have hij : Http.jsIsJson res = true := by
    unfold Http.jsIsJson
    rw [hct]
    exact hin
  simp [Http.getClient, Http.afterFetch, hf, Http.handleResponse, hij, hj, hok]

/-- C3 witness: the dogs example — body
`\x7b"dogs":[\x7b"name":"Rex"\x7d]\x7d` under `content-type:
application/json` resolves to the parsed object. -/
theorem json_success_resolves_parsed_body_witness :
    Http.getClient Http.dogsFetch none "https://api.dogs.awesome" none
      = .ok (.json Http.dogsJson) :=
  json_success_resolves_parsed_body Http.dogsFetch none "https://api.dogs.awesome"
    none Http.dogsResponse "application/json" Http.dogsJson
    rfl rfl rfl (by decide) rfl

/-- C4: a response with `ok = true` whose `content-type` header is missing
or whose value does not contain `"application/json"` makes the bound
client resolve to the raw text body; the containment check is
case-sensitive, so an upper-cased JSON media type does not count as JSON. -/
theorem non_json_success_resolves_text (f : Http.FetchPrim)
    (d : Option Http.Opts) (t : String) (o : Option Http.Opts)
    (res : Http.HttpResponse) (s : String)
    (hf : f t (Http.jsInit d o) = .ok res)
    (hok : res.ok = true)
    (hct : res.contentType = none
      ∨ ∃ ct, res.contentType = some ct
          ∧ Http.strIncludes ct "application/json" = false)
    (ht : res.textBody = .ok s) :
    Http.getClient f d t o = .ok (.text s)
    ∧ Http.strIncludes "Application/JSON" "application/json" = false := by
  have hij : Http.jsIsJson res = false := by
    unfold Http.jsIsJson
    rcases hct with h | ⟨ct, h, hi⟩ <;> rw [h]
    exact hi
  exact ⟨by simp [Http.getClient, Http.afterFetch, hf, Http.handleResponse, hij, ht, hok],
    by decide⟩

/-- C4 witness: body `"pong"` under `content-type: text/plain` resolves
to the raw text `"pong"`. -/
theorem non_json_success_resolves_text_witness :
    Http.getClient Http.pongFetch none "https://x/ping" none = .ok (.text "pong")
    ∧ Http.strIncludes "Application/JSON" "application/json" = false :=
  non_json_success_resolves_text Http.pongFetch none "https://x/ping" none
    Http.pongResponse "pong" rfl rfl (.inr ⟨"text/plain", rfl, by decide⟩) rfl

/-- C8: a rejection of the primitive, and an error raised by the body
read that the content-type branch selects (JSON parse on the JSON branch,
text decode otherwise), each propagate to the caller as exactly the same
error value — never caught, transformed, or replaced by a RequestFailure
(the body is awaited before `res.ok` is consulted, so this holds on both
the success and the failure path). -/
theorem errors_propagate_unchanged (f : Http.FetchPrim)
    (d : Option Http.Opts) (t : String) (o : Option Http.Opts)
    (e : Http.JsErr) (res : Http.HttpResponse) :
    (f t (Http.jsInit d o) = .error e → Http.getClient f d t o = .error e)
    ∧ (f t (Http.jsInit d o) = .ok res → Http.jsIsJson res = true →
        res.jsonBody = .error e → Http.getClient f d t o = .error e)
    ∧ (f t (Http.jsInit d o) = .ok res → Http.jsIsJson res = false →
        res.textBody = .error e → Http.getClient f d t o = .error e) := by
  refine ⟨fun hf => ?_, fun hf hij hj => ?_, fun hf hij ht => ?_⟩
  · simp [Http.getClient, Http.afterFetch, hf]
  · simp [Http.getClient, Http.afterFetch, hf, Http.handleResponse, hij, hj]
  · simp [Http.getClient, Http.afterFetch, hf, Http.handleResponse, hij, ht]

/-- C8 witness: a primitive that rejects with the error `⟨"boom", 7⟩`
makes the bound client reject with that very error. -/
theorem errors_propagate_unchanged_witness :
    Http.getClient Http.rejectingFetch none "https://x/y" none = .error ⟨"boom", 7⟩ :=
  (errors_propagate_unchanged Http.rejectingFetch none "https://x/y" none
    ⟨"boom", 7⟩ Http.dummyResponse).1 rfl

/-- C1: when the selected body read succeeds, the bound client rejects
exactly when the response's ok-flag is false (and resolves with the
parsed/text body otherwise); and any response with `ok = false`, status
404, url `"https://x/y"` and non-JSON body `"not found"` makes it reject
with an error whose message contains `"https://x/y"`, `"404"` and
`"not found"`. -/
theorem request_failure_iff_not_ok (f : Http.FetchPrim)
    (d : Option Http.Opts) (t : String) (o : Option Http.Opts)
    (res : Http.HttpResponse)
    (hf : f t (Http.jsInit d o) = .ok res)
    (hjson : Http.jsIsJson res = true → ∃ v, res.jsonBody = .ok v)
    (htext : Http.jsIsJson res = false → ∃ s, res.textBody = .ok s) :
    ((∃ e, Http.getClient f d t o = .error e) ↔ res.ok = false)
    ∧ (res.ok = false → res.status = 404 → res.url = "https://x/y" →
        Http.jsIsJson res = false → res.textBody = .ok "not found" →
        ∃ e, Http.getClient f d t o = .error e
          ∧ Http.strIncludes e.message "https://x/y" = true
          ∧ Http.strIncludes e.message "404" = true
          ∧ Http.strIncludes e.message "not found" = true) := by
  have hg : Http.getClient f d t o = Http.handleResponse res := by
    simp [Http.getClient, Http.afterFetch, hf]
  constructor
  · cases hij : Http.jsIsJson res with
    | true =>
      obtain ⟨v, hv⟩ := hjson hij
      cases hok : res.ok <;>
        simp [hg, Http.handleResponse, hij, hv, hok]
    | false =>
      obtain ⟨s, hs⟩ := htext hij
      cases hok : res.ok <;>
        simp [hg, Http.handleResponse, hij, hs, hok]
  · intro hnok h404 hurl hij hnf
    have hm : Http.failureMessage res "not found"
        = "Request to https://x/y failed with status 404 and response \"not found\"." := by
      unfold Http.failureMessage
      rw [hurl, h404]
      decide
    refine ⟨⟨Http.failureMessage res "not found", 0⟩, ?_, ?_, ?_, ?_⟩
    · simp [hg, Http.handleResponse, hij, hnf, hnok]
    · rw [show (Http.JsErr.mk (Http.failureMessage res "not found") 0).message
          = Http.failureMessage res "not found" from rfl, hm]
      decide
    · rw [show (Http.JsErr.mk (Http.failureMessage res "not found") 0).message
          = Http.failureMessage res "not found" from rfl, hm]
      decide
    · rw [show (Http.JsErr.mk (Http.failureMessage res "not found") 0).message
          = Http.failureMessage res "not found" from rfl, hm]
      decide

/-- C1 witness: the concrete 404 scenario — the client rejects and the
message carries the url, the status and the body text. -/
theorem request_failure_iff_not_ok_witness :
    ∃ e, Http.getClient Http.notFoundFetch none "https://x/y" none = .error e
      ∧ Http.strIncludes e.message "https://x/y" = true
      ∧ Http.strIncludes e.message "404" = true
      ∧ Http.strIncludes e.message "not found" = true :=
  (request_failure_iff_not_ok Http.notFoundFetch none "https://x/y" none
      Http.notFoundResponse rfl
      (fun h => absurd h (by decide))
      (fun _ => ⟨"not found", rfl⟩)).2
    rfl rfl rfl (by decide) rfl

/-- C5: on the failure path with a JSON content type, line 34 of the
source interpolates `JSON.stringify(res.body)` — the raw `ReadableStream`
object, which stringifies to `"\x7b\x7d"` — instead of the parsed body
value held in `result`. For a failing response with body `\x7b"a":1\x7d`
the produced message therefore renders the body as `"\x7b\x7d"` and does
not contain the JSON-stringification `\x7b"a":1\x7d` of the parsed value,
contradicting the claim (and the message's own evident intent of showing
the response content). -/
theorem error_message_stringifies_raw_stream :
    Http.getClient Http.badJsonApiFetch none "https://x/y" none
      = .error ⟨"Request to https://x/y failed with status 500 and response \"\x7b\x7d\".", 0⟩
    ∧ Http.strIncludes
        "Request to https://x/y failed with status 500 and response \"\x7b\x7d\"."
        "\x7b\"a\":1\x7d" = false :=
  ⟨rfl, by decide⟩

/-- Helper: looking a key up in `o` filtered to the keys `d` lacks finds
`o`'s value exactly when `d` lacks the key. -/
theorem lookup_filter_keyNone (d : Http.Opts) (o : Http.Opts) (k : String) :
    (o.filter fun kv => ((d.lookup kv.1).isNone : Bool)).lookup k
      = if (d.lookup k).isNone then o.lookup k else none := by
  induction o with
  | nil => simp [List.lookup]
  | cons kv o ih =>
    rcases kv with ⟨a, v⟩
    by_cases hk : k = a
    · subst hk
      cases hp : (d.lookup k).isNone <;>
        simp [List.filter_cons, List.lookup, hp, ih]
    · have hbk : (k == a) = false := by
        simp [hk]
      cases hp : (d.lookup a).isNone <;>
        simp [List.filter_cons, List.lookup, hp, hbk, ih]

/-- Helper: looking a key up in `d` with each entry overridden by `o`'s
value (when `o` has the key) finds `d`'s entry with the override applied. -/
theorem lookup_mapOverride (d : Http.Opts) (o : Http.Opts) (k : String) :
    ((d.map fun kv =>
        match o.lookup kv.1 with
        | some v => (kv.1, v)
        | none => kv).lookup k)
      = match d.lookup k with
        | none => none
        | some w => some ((o.lookup k).getD w) := by
  induction d with
  | nil => simp [List.lookup]
  | cons kv d ih =>
    rcases kv with ⟨a, v⟩
    by_cases hk : k = a
    · subst hk
      cases ho : o.lookup k <;>
        simp [List.lookup, ho]
    · have hbk : (k == a) = false := by
        simp [hk]
      cases ho : o.lookup a <;>
        simp [List.lookup, ho, hbk, ih]

/-- Helper: key lookup over list append searches left then right. -/
theorem lookup_append_assoc (l₁ l₂ : Http.Opts) (k : String) :
    (l₁ ++ l₂).lookup k
      = match l₁.lookup k with
        | some v => some v
        | none => l₂.lookup k := by
  induction l₁ with
  | nil => simp [List.lookup]
  | cons kv l₁ ih =>
    rcases kv with ⟨a, v⟩
    cases hbk : (k == a) <;>
      simp [List.lookup, hbk, ih]

/-- Helper: extensionally, the spread `\x7b...d, ...o\x7d` maps each key
to `o`'s value when `o` has it and to `d`'s value otherwise — the
per-call side wins every key collision, wholesale. -/
theorem mergeOpts_lookup (d o : Http.Opts) (k : String) :
    (Http.mergeOpts d o).lookup k
      = match o.lookup k with
        | some v => some v
        | none => d.lookup k := by
  unfold Http.mergeOpts
  rw [lookup_append_assoc, lookup_mapOverride, lookup_filter_keyNone]
  cases hd : d.lookup k <;> cases ho : o.lookup k <;> simp [hd, ho]

/-- C2: the bound client hands the primitive exactly the shallow merge of
the default options under the per-call options — per-call keys win on
collision and nested objects are replaced wholesale (the headers example
yields `\x7b headers: \x7b B: "2" \x7d \x7d`); with no per-call options
the primitive receives the default options as-is, and with neither it
receives no options. -/
theorem merged_options_passed_to_primitive (f : Http.FetchPrim)
    (d o : Http.Opts) (t : String) :
    Http.getClient f (some d) t (some o)
      = Http.afterFetch (f t (some (Http.mergeOpts d o)))
    ∧ (∀ k, (Http.mergeOpts d o).lookup k
        = match o.lookup k with
          | some v => some v
          | none => d.lookup k)
    ∧ Http.getClient f (some d) t none = Http.afterFetch (f t (some d))
    ∧ Http.getClient f none t (some o) = Http.afterFetch (f t (some o))
    ∧ Http.getClient f none t none = Http.afterFetch (f t none)
    ∧ Http.mergeOpts [("headers", Http.Json.obj [("A", Http.Json.str "1")])]
        [("headers", Http.Json.obj [("B", Http.Json.str "2")])]
      = [("headers", Http.Json.obj [("B", Http.Json.str "2")])] := by
  refine ⟨rfl, fun k => mergeOpts_lookup d o k, ?_, rfl, rfl, rfl⟩
  have h : Http.mergeOpts d [] = d := by
    unfold Http.mergeOpts
    simp [List.lookup]
  simp [Http.getClient, Http.jsInit, h]
